import Mathlib

/-!
# Verification of `preview.py`

A shallow embedding in Lean 4 of the local-preview script `preview.py`,
which finds an available TCP port, starts a static-file HTTP server on it,
and opens the served site in a browser.

The effectful parts of the script (socket binds, the browser-open call,
keyboard interrupts) are modelled by explicit environments:

* a bind attempt on a port either succeeds or raises `OSError` with an
  `errno`, captured by `BindResult`;
* issuing the Safari `open` command either succeeds or raises, captured by
  a boolean `safariRaises`;
* delivery of a keyboard interrupt while the server is serving is captured
  by a boolean `interrupted`.

With these environments fixed, every function of the script is a pure Lean
function mirroring the Python control flow line by line.
-/

set_option autoImplicit false

/-- Outcome of one attempt to bind a TCP listening socket on a port
(`socketserver.TCPServer(("", port), ...)`): either the bind succeeds,
or it raises an `OSError` carrying an `errno`. -/
inductive BindResult where
  | ok : BindResult
  | err (errno : Int) : BindResult
  deriving DecidableEq, Repr

/-- Result of `find_available_port`: the port returned, the
`Exception("Could not find available port")` raised when the probing
window is exhausted, or an `OSError` re-raised unchanged. -/
inductive ProbeResult where
  | found (port : Nat) : ProbeResult
  | exhausted : ProbeResult
  | oserror (errno : Int) : ProbeResult
  deriving DecidableEq, Repr

/-- The `while True` loop body of `find_available_port` (preview.py lines
46-57): try to bind `port`; on success return it; on `OSError` with
`errno == 48` increment the port, raising the exhaustion exception once
`port > start_port + 100`; re-raise any other `OSError`. -/
def findLoop (env : Nat → BindResult) (start_port port : Nat) : ProbeResult :=
  match env port with
  | .ok => .found port
  | .err e =>
    if e = 48 then
      if h : port + 1 > start_port + 100 then .exhausted
      else findLoop env start_port (port + 1)
    else .oserror e
termination_by start_port + 101 - port
decreasing_by simp_wf; omega

/-- `find_available_port(start_port)` (preview.py lines 44-57): probe ports
sequentially starting at `start_port`. -/
def find_available_port (env : Nat → BindResult) (start_port : Nat) : ProbeResult :=
  findLoop env start_port start_port

/-- Claim C1: first-fit search of `find_available_port`: if binding `P`
succeeds the function returns exactly `P`; if binding `P` fails with
errno 48 (address already in use) and binding `P + 1` succeeds, it
returns `P + 1`. -/
theorem find_available_port_first_fit (env : Nat → BindResult) (P : Nat) :
    (env P = .ok → find_available_port env P = .found P) ∧
    (env P = .err 48 → env (P + 1) = .ok →
      find_available_port env P = .found (P + 1)) := by
  constructor
  · intro h
    unfold find_available_port findLoop
    rw [h]
  · intro h1 h2
    unfold find_available_port findLoop
    rw [h1]
    have hguard : ¬ P + 1 > P + 100 := by omega
    simp only [if_pos rfl, dif_neg hguard]
    unfold findLoop
    rw [h2]
    simp

/-- Environment for the C1 witness: port 9000 is occupied (errno 48),
every other port is free. -/
def envFirstFit : Nat → BindResult :=
  fun p => if p = 9000 then .err 48 else .ok

/-- Witness for C1 at concrete inputs: starting at a free port 8000 the
probe returns 8000; starting at the occupied port 9000 it returns 9001. -/
theorem find_available_port_first_fit_witness :
    find_available_port envFirstFit 8000 = .found 8000 ∧
    find_available_port envFirstFit 9000 = .found 9001 :=
  ⟨(find_available_port_first_fit envFirstFit 8000).1 (by simp [envFirstFit]),
   (find_available_port_first_fit envFirstFit 9000).2 (by simp [envFirstFit])
     (by simp [envFirstFit])⟩

/-- If every port from `port` up to `start_port + 100` is reported busy
with errno 48, the probing loop raises the exhaustion exception. `n`
bounds the remaining window, enabling induction. -/
theorem findLoop_all_busy (env : Nat → BindResult) (start_port : Nat) :
    ∀ n port, start_port + 101 - port ≤ n → port ≤ start_port + 100 →
      (∀ p, port ≤ p → p ≤ start_port + 100 → env p = .err 48) →
      findLoop env start_port port = .exhausted := by
  intro n
  induction n with
  | zero =>
    intro port hn hle _
    omega
  | succ n ih =>
    intro port hn hle hall
    unfold findLoop
    rw [hall port le_rfl hle]
    by_cases hg : port + 1 > start_port + 100
    · simp [hg]
    · simp only [if_pos rfl, dif_neg hg]
      exact ih (port + 1) (by omega) (by omega)
        (fun p hp1 hp2 => hall p (by omega) hp2)

/-- Claim C2: termination and port exhaustion: when every candidate in the
window `[s, s + 100]` fails with errno 48, `find_available_port` raises
the "Could not find available port" exception after the bounded number
of increments instead of probing forever (the loop itself is a total
function, so it terminates on every input). -/
theorem find_available_port_exhaustion (env : Nat → BindResult) (s : Nat)
    (h : ∀ p, s ≤ p → p ≤ s + 100 → env p = .err 48) :
    find_available_port env s = .exhausted :=
  findLoop_all_busy env s 101 s (by omega) (by omega) h

/-- Witness for C2 at a concrete input: with every port busy (errno 48),
probing from 8000 raises the exhaustion exception. -/
theorem find_available_port_exhaustion_witness :
    find_available_port (fun _ => .err 48) 8000 = .exhausted :=
  find_available_port_exhaustion (fun _ => .err 48) 8000
    (fun _ _ _ => rfl)

/-- Any port value returned by the probing loop lies between the current
candidate and `start_port + 100`, provided the current candidate is
still inside the window. -/
theorem findLoop_found_range (env : Nat → BindResult) (start_port : Nat) :
    ∀ n port v, start_port + 101 - port ≤ n → port ≤ start_port + 100 →
      findLoop env start_port port = .found v →
      port ≤ v ∧ v ≤ start_port + 100 := by
  intro n
  induction n with
  | zero =>
    intro port v hn hle _
    omega
  | succ n ih =>
    intro port v hn hle hfound
    unfold findLoop at hfound
    revert hfound
    cases henv : env port with
    | ok =>
      intro hfound
      cases hfound
      exact ⟨le_rfl, hle⟩
    | err e =>
      by_cases he : e = 48
      · simp only [if_pos he]
        by_cases hg : port + 1 > start_port + 100
        · rw [dif_pos hg]
          intro hfound
          cases hfound
        · rw [dif_neg hg]
          intro hfound
          have := ih (port + 1) v (by omega) (by omega) hfound
          exact ⟨by omega, this.2⟩
      · simp only [if_neg he]
        intro hfound
        cases hfound

/-- Claim C10: whenever `find_available_port` starting at `s` returns a
value rather than raising, that value lies in `[s, s + 100]`; with the
default start 8000 every possible result lies in `[8000, 8100]` and in
particular within the 16-bit TCP port range. -/
theorem find_available_port_range (env : Nat → BindResult) (s v : Nat) :
    (find_available_port env s = .found v → s ≤ v ∧ v ≤ s + 100) ∧
    (find_available_port env 8000 = .found v →
      8000 ≤ v ∧ v ≤ 8100 ∧ v ≤ 65535) := by
  constructor
  · intro h
    exact findLoop_found_range env s 101 s v (by omega) (by omega) h
  · intro h
    have := findLoop_found_range env 8000 101 8000 v (by omega) (by omega) h
    exact ⟨this.1, this.2, by omega⟩

/-- Witness for C10 at a concrete input: with every port free, probing
from 8000 returns 8000, which lies in the stated ranges. -/
theorem find_available_port_range_witness :
    8000 ≤ 8000 ∧ 8000 ≤ 8000 + 100 :=
  (find_available_port_range (fun _ => .ok) 8000 8000).1
    (by unfold find_available_port findLoop; rfl)

/-- Result of `start_server` (preview.py lines 15-28): the server binds a
port and serves forever (`serving`; the `return port` after
`serve_forever()` is unreachable), a `KeyboardInterrupt` escapes
`serve_forever` (`interrupted`), an `OSError` other than errno 48 is
re-raised (`oserror`), or the model's recursion budget runs out
(`outOfFuel`, modelling the unbounded recursion of the Python code
under pathological contention). -/
inductive ServerResult where
  | serving (port : Nat) : ServerResult
  | interrupted (port : Nat) : ServerResult
  | oserror (errno : Int) : ServerResult
  | outOfFuel : ServerResult
  deriving DecidableEq, Repr

/-- Observable events of a program run, in order: the port finder yielding
its result, the launcher thread being started with a port, and each bind
attempt made by the server. -/
inductive Event where
  | portFound (port : Nat) : Event
  | launcherStart (port : Nat) : Event
  | serverBindAttempt (port : Nat) : Event
  deriving DecidableEq, Repr

/-- `start_server(port)` (preview.py lines 15-28): try to bind `port`; on
success serve forever (until a keyboard interrupt, if one is delivered);
on `OSError` with `errno == 48` recursively retry on `port + 1`; re-raise
any other `OSError`. Returns the result together with the list of bind
attempts made. `fuel` bounds the recursion depth of the model only; the
Python recursion is unbounded. -/
def start_server (env : Nat → BindResult) (intr : Bool) :
    Nat → Nat → ServerResult × List Event
  | 0, _ => (.outOfFuel, [])
  | fuel + 1, port =>
    match env port with
    | .ok =>
      (if intr then .interrupted port else .serving port,
       [.serverBindAttempt port])
    | .err e =>
      if e = 48 then
        let rest := start_server env intr fuel (port + 1)
        (rest.1, .serverBindAttempt port :: rest.2)
      else (.oserror e, [.serverBindAttempt port])

/-- A browser-open action issued by the launcher: either the Safari-specific
`os.system('open -a Safari ...')` call or the `webbrowser.open` fallback. -/
inductive OpenInvocation where
  | safari (url : String) : OpenInvocation
  | defaultBrowser (url : String) : OpenInvocation
  deriving DecidableEq, Repr

/-- The URL an invocation opens. -/
def OpenInvocation.url : OpenInvocation → String
  | .safari u => u
  | .defaultBrowser u => u

/-- What the launcher did: the browser-open actions issued (in order) and
the informational line printed. -/
structure LaunchResult where
  invocations : List OpenInvocation
  printed : String
  deriving DecidableEq, Repr

/-- The URL `f"http://localhost:{port}/"` built by the script. -/
def previewUrl (port : Nat) : String :=
  "http://localhost:" ++ toString port ++ "/"

/-- `open_in_safari(port)` (preview.py lines 30-42): build the local URL,
try `os.system('open -a Safari "<url>"')` followed by a print; if issuing
that call raises (`safariRaises`), fall back to `webbrowser.open(url)`
and print the fallback line instead. -/
def open_in_safari (safariRaises : Bool) (port : Nat) : LaunchResult :=
  let url := previewUrl port
  if safariRaises then
    ⟨[.defaultBrowser url], "Opening " ++ url ++ " in default browser..."⟩
  else
    ⟨[.safari url], "Opening " ++ url ++ " in Safari..."⟩

/-- The external environment of one program run: bind outcomes as seen by
the port finder's probes, bind outcomes as seen by the server (the two
phases are not atomic, so another process may change them in between),
whether the Safari open call raises, and whether a keyboard interrupt is
delivered while the server is serving. -/
structure MainEnv where
  probeBind : Nat → BindResult
  serveBind : Nat → BindResult
  safariRaises : Bool
  interrupted : Bool

/-- Final outcome of the `__main__` block (preview.py lines 59-73). -/
inductive RunOutcome where
  | cleanExit : RunOutcome
  | servesForever (port : Nat) : RunOutcome
  | fatalOSError (errno : Int) : RunOutcome
  | portExhaustion : RunOutcome
  | outOfFuel : RunOutcome
  deriving DecidableEq, Repr

/-- Everything observable about one program run: the final outcome, the
ordered event trace, the browser-open actions issued by the launcher
thread, the port the server actually bound (if any), the process exit
code when the run exits through an explicit `sys.exit`, and the final
message printed on shutdown. -/
structure RunResult where
  outcome : RunOutcome
  trace : List Event
  browserOpens : List OpenInvocation
  serverBound : Option Nat
  exitCode : Option Nat
  finalMessage : Option String

/-- The `__main__` block (preview.py lines 59-73): find an available port
starting at 8000; start the launcher thread with that port; run
`start_server` on the same port; catch `KeyboardInterrupt` at the top
level, print the shutdown message and exit with status 0. An exception
escaping `find_available_port` propagates before the launcher thread is
ever started. -/
def main_block (env : MainEnv) (fuel : Nat) : RunResult :=
  match find_available_port env.probeBind 8000 with
  | .exhausted => ⟨.portExhaustion, [], [], none, none, none⟩
  | .oserror e => ⟨.fatalOSError e, [], [], none, none, none⟩
  | .found port =>
    let launch := open_in_safari env.safariRaises port
    let srv := start_server env.serveBind env.interrupted fuel port
    let trace := Event.portFound port :: Event.launcherStart port :: srv.2
    match srv.1 with
    | .serving p =>
      ⟨.servesForever p, trace, launch.invocations, some p, none, none⟩
    | .interrupted p =>
      ⟨.cleanExit, trace, launch.invocations, some p, some 0,
       some "\nServer stopped."⟩
    | .oserror e =>
      ⟨.fatalOSError e, trace, launch.invocations, none, none, none⟩
    | .outOfFuel =>
      ⟨.outOfFuel, trace, launch.invocations, none, none, none⟩

/-- Claim C5: if the server's bind at `p` fails with errno 48 (address
already in use), `start_server` retries on `p + 1` instead of failing:
the run continues exactly as a run started at `p + 1` (after recording
the failed attempt), and when `p + 1` is free the server ends up serving
on `p + 1`. This retry layer lives in `start_server` itself, which takes
only the serve-time bind environment and never consults the port
finder. -/
theorem start_server_retry_next_port (env : Nat → BindResult) (intr : Bool)
    (fuel p : Nat) (h : env p = .err 48) :
    (start_server env intr (fuel + 1) p).1 =
      (start_server env intr fuel (p + 1)).1 ∧
    (start_server env intr (fuel + 1) p).2 =
      .serverBindAttempt p :: (start_server env intr fuel (p + 1)).2 ∧
    (env (p + 1) = .ok →
      (start_server env false (fuel + 2) p).1 = .serving (p + 1)) := by
  refine ⟨by simp [start_server, h], by simp [start_server, h], ?_⟩
  intro hok
  simp [start_server, h, hok]

/-- Witness for C5 at a concrete input: with 9000 busy (errno 48) and 9001
free, the server run from 9000 continues as the run from 9001 and ends
up serving on 9001. -/
theorem start_server_retry_next_port_witness :
    (start_server envFirstFit false (1 + 1) 9000).1 =
      (start_server envFirstFit false 1 (9000 + 1)).1 ∧
    (start_server envFirstFit false (1 + 1) 9000).2 =
      .serverBindAttempt 9000 ::
        (start_server envFirstFit false 1 (9000 + 1)).2 ∧
    (start_server envFirstFit false (1 + 2) 9000).1 = .serving (9000 + 1) :=
  ⟨(start_server_retry_next_port envFirstFit false 1 9000
      (by simp [envFirstFit])).1,
   (start_server_retry_next_port envFirstFit false 1 9000
      (by simp [envFirstFit])).2.1,
   (start_server_retry_next_port envFirstFit false 1 9000
      (by simp [envFirstFit])).2.2 (by simp [envFirstFit])⟩

/-- Claim C6: a binding failure whose errno is not 48 is propagated
unchanged by both the port finder (from any point of its probe) and the
server: no retry, no recovery, the same errno reaches the caller. -/
theorem other_oserror_propagates (env : Nat → BindResult) (intr : Bool)
    (fuel s q : Nat) (e : Int) (h : env q = .err e) (hne : e ≠ 48) :
    findLoop env s q = .oserror e ∧
    start_server env intr (fuel + 1) q = (.oserror e, [.serverBindAttempt q]) := by
  constructor
  · unfold findLoop
    rw [h]
    simp [hne]
  · simp [start_server, h, hne]

/-- Witness for C6 at a concrete input: errno 13 (permission denied) on
port 8000 is propagated unchanged by both layers. -/
theorem other_oserror_propagates_witness :
    findLoop (fun _ => .err 13) 8000 8000 = .oserror 13 ∧
    start_server (fun _ => .err 13) false (0 + 1) 8000 =
      (.oserror 13, [.serverBindAttempt 8000]) :=
  other_oserror_propagates (fun _ => .err 13) false 0 8000 8000 13 rfl
    (by decide)

/-- Claim C9: the address-already-in-use condition is recognized solely by
the errno being exactly 48 (the macOS value): any other errno is
propagated as fatal by both `find_available_port` and `start_server`
and never triggers a retry, while errno 48 makes both layers move on to
the next port. -/
theorem addr_in_use_is_errno_48 (env : Nat → BindResult) (intr : Bool)
    (fuel s q : Nat) (e : Int) (h : env q = .err e) :
    (e ≠ 48 →
      findLoop env s q = .oserror e ∧
      start_server env intr (fuel + 1) q =
        (.oserror e, [.serverBindAttempt q])) ∧
    (e = 48 →
      findLoop env s q =
        (if q + 1 > s + 100 then .exhausted else findLoop env s (q + 1)) ∧
      (start_server env intr (fuel + 1) q).1 =
        (start_server env intr fuel (q + 1)).1) := by
  constructor
  · intro hne
    constructor
    · unfold findLoop
      rw [h]
      simp [hne]
    · simp [start_server, h, hne]
  · intro he
    subst he
    constructor
    · conv_lhs => rw [findLoop.eq_def]
      rw [h]
      by_cases hg : q + 1 > s + 100
      · simp [hg]
      · simp [hg]
    · simp [start_server, h]

/-- Witness for C9 at a concrete input: errno 98, the Linux value for
address-already-in-use, is treated as fatal by both layers and does not
trigger a retry. -/
theorem addr_in_use_is_errno_48_witness :
    findLoop (fun _ => .err 98) 8000 8000 = .oserror 98 ∧
    start_server (fun _ => .err 98) false (0 + 1) 8000 =
      (.oserror 98, [.serverBindAttempt 8000]) :=
  (addr_in_use_is_errno_48 (fun _ => .err 98) false 0 8000 8000 98 rfl).1
    (by decide)

/-- Claim C3: for every port, when issuing the Safari open call raises, the
launcher falls back to `webbrowser.open` and prints the default-browser
line; when it does not raise, the Safari call is the one issued and the
Safari line is printed; and the server's operation (the run's outcome
and the port it binds) is the same either way. -/
theorem open_in_safari_fallback (port : Nat) (pb sb : Nat → BindResult)
    (intr : Bool) (fuel : Nat) :
    ((open_in_safari true port).invocations =
        [.defaultBrowser (previewUrl port)] ∧
      (open_in_safari true port).printed =
        "Opening " ++ previewUrl port ++ " in default browser...") ∧
    ((open_in_safari false port).invocations = [.safari (previewUrl port)] ∧
      (open_in_safari false port).printed =
        "Opening " ++ previewUrl port ++ " in Safari...") ∧
    (main_block ⟨pb, sb, true, intr⟩ fuel).outcome =
      (main_block ⟨pb, sb, false, intr⟩ fuel).outcome ∧
    (main_block ⟨pb, sb, true, intr⟩ fuel).serverBound =
      (main_block ⟨pb, sb, false, intr⟩ fuel).serverBound := by
  refine ⟨⟨rfl, rfl⟩, ⟨rfl, rfl⟩, ?_, ?_⟩ <;>
  · simp only [main_block]
    cases hf : find_available_port pb 8000 with
    | found p =>
      dsimp only
      cases hs : (start_server sb intr fuel p).1 <;> rfl
    | exhausted => rfl
    | oserror e => rfl

/-- Claim C7: when a keyboard interrupt is delivered while the server is
serving, the interrupt is caught at the top level of `__main__`, the
shutdown message is printed and the process exits with status 0;
moreover this is the only path on which the run exits with status 0. -/
theorem interrupt_clean_exit (env : MainEnv) (fuel p q : Nat)
    (hfind : find_available_port env.probeBind 8000 = .found p)
    (hsrv : (start_server env.serveBind env.interrupted fuel p).1 =
      .interrupted q) :
    ((main_block env fuel).outcome = .cleanExit ∧
      (main_block env fuel).exitCode = some 0 ∧
      (main_block env fuel).finalMessage = some "\nServer stopped.") ∧
    (∀ env2 : MainEnv, ∀ fuel2 : Nat,
      (main_block env2 fuel2).exitCode = some 0 →
      (main_block env2 fuel2).outcome = .cleanExit ∧
      (main_block env2 fuel2).finalMessage = some "\nServer stopped.") := by
  constructor
  · simp [main_block, hfind, hsrv]
  · intro env2 fuel2
    simp only [main_block]
    cases hf : find_available_port env2.probeBind 8000 with
    | found p2 =>
      dsimp only
      cases hs : (start_server env2.serveBind env2.interrupted fuel2 p2).1 <;>
        intro hexit
      case serving p3 => simp at hexit
      case interrupted q3 => exact ⟨rfl, rfl⟩
      case oserror e3 => simp at hexit
      case outOfFuel => simp at hexit
    | exhausted => intro hexit; simp at hexit
    | oserror e2 => intro hexit; simp at hexit

/-- Environment for the C7 witness: every port free at both phases, no
Safari failure, and a keyboard interrupt delivered while serving. -/
def envIntr : MainEnv :=
  ⟨fun _ => .ok, fun _ => .ok, false, true⟩

/-- Witness for C7 at a concrete input: in `envIntr` the run exits cleanly
with status 0 after printing the shutdown message. -/
theorem interrupt_clean_exit_witness :
    (main_block envIntr 1).outcome = .cleanExit ∧
    (main_block envIntr 1).exitCode = some 0 ∧
    (main_block envIntr 1).finalMessage = some "\nServer stopped." :=
  (interrupt_clean_exit envIntr 1 8000 8000
    (by simp [envIntr, find_available_port, findLoop]) rfl).1

/-- Claim C8: in `__main__`, the port finder completes and yields its value
`p` before the launcher thread is started and before any server bind is
attempted: the trace starts with `portFound p` then `launcherStart p`,
followed only by the server's bind attempts, the first of which (as soon
as the server runs at all) is on the same `p`; the launcher's browser
actions likewise use exactly `p`. -/
theorem main_block_ordering (env : MainEnv) (fuel p : Nat)
    (hfind : find_available_port env.probeBind 8000 = .found p) :
    (main_block env fuel).trace =
      Event.portFound p :: Event.launcherStart p ::
        (start_server env.serveBind env.interrupted fuel p).2 ∧
    (main_block env fuel).browserOpens =
      (open_in_safari env.safariRaises p).invocations ∧
    (0 < fuel →
      (start_server env.serveBind env.interrupted fuel p).2.head? =
        some (.serverBindAttempt p)) := by
  refine ⟨?_, ?_, ?_⟩
  · simp only [main_block, hfind]
    cases hs : (start_server env.serveBind env.interrupted fuel p).1 <;> rfl
  · simp only [main_block, hfind]
    cases hs : (start_server env.serveBind env.interrupted fuel p).1 <;> rfl
  · intro hfuel
    cases fuel with
    | zero => omega
    | succ f =>
      cases henv : env.serveBind p with
      | ok => simp [start_server, henv]
      | err e =>
        by_cases he : e = 48
        · simp [start_server, henv, he]
        · simp [start_server, henv, he]

/-- Environment for witnesses: every port free at both phases, no Safari
failure, no interrupt. -/
def envFree : MainEnv :=
  ⟨fun _ => .ok, fun _ => .ok, false, false⟩

/-- Witness for C8 at a concrete input: in `envFree` the trace starts with
`portFound 8000` then `launcherStart 8000`, and the first server bind
attempt is on 8000. -/
theorem main_block_ordering_witness :
    (main_block envFree 1).trace =
      Event.portFound 8000 :: Event.launcherStart 8000 ::
        (start_server envFree.serveBind envFree.interrupted 1 8000).2 ∧
    (start_server envFree.serveBind envFree.interrupted 1 8000).2.head? =
      some (.serverBindAttempt 8000) :=
  ⟨(main_block_ordering envFree 1 8000
      (by simp [envFree, find_available_port, findLoop])).1,
   (main_block_ordering envFree 1 8000
      (by simp [envFree, find_available_port, findLoop])).2.2 (by decide)⟩

/-- Claim C4, amended: the launcher issues the browser-open action exactly
once per run, with the URL `http://localhost:<p>/` where `p` is the port
returned by the port finder — which is the port first passed to the
server, and equals the port the server actually binds whenever the
server's first bind attempt succeeds. -/
theorem browser_open_once (env : MainEnv) (fuel p : Nat)
    (hfind : find_available_port env.probeBind 8000 = .found p) :
    (main_block env fuel).browserOpens.length = 1 ∧
    (∀ inv ∈ (main_block env fuel).browserOpens,
      OpenInvocation.url inv = previewUrl p) ∧
    (env.serveBind p = .ok → 0 < fuel →
      (main_block env fuel).serverBound = some p) := by
  refine ⟨?_, ?_, ?_⟩
  · simp only [main_block, hfind]
    cases hs : (start_server env.serveBind env.interrupted fuel p).1 <;>
      cases hsa : env.safariRaises <;> simp [open_in_safari]
  · simp only [main_block, hfind]
    cases hs : (start_server env.serveBind env.interrupted fuel p).1 <;>
      cases hsa : env.safariRaises <;>
      simp [open_in_safari, OpenInvocation.url]
  · intro hok hfuel
    cases fuel with
    | zero => omega
    | succ f =>
      cases hintr : env.interrupted <;>
        simp [main_block, hfind, start_server, hok, hintr]

/-- Witness for the amended C4 at a concrete input: in `envFree` the
launcher issues exactly one browser-open action and the server binds the
same port 8000 the finder returned. -/
theorem browser_open_once_witness :
    (main_block envFree 1).browserOpens.length = 1 ∧
    (main_block envFree 1).serverBound = some 8000 :=
  ⟨(browser_open_once envFree 1 8000
      (by simp [envFree, find_available_port, findLoop])).1,
   (browser_open_once envFree 1 8000
      (by simp [envFree, find_available_port, findLoop])).2.2 rfl (by decide)⟩

/-- Environment exhibiting the probe/serve race: every port is free while
the port finder probes, but by the time the server binds, port 8000 has
been taken by another process (errno 48) and only 8001 is free. -/
def envRace : MainEnv :=
  ⟨fun _ => .ok, fun p => if p = 8000 then .err 48 else .ok, false, false⟩

/-- Counterexample to claim C4 as stated: in `envRace` the server ends up
bound to port 8001 (after its own retry), yet the launcher's single
browser-open action uses `http://localhost:8000/`, the port finder's
value — not the port the server was bound to. -/
theorem browser_open_port_mismatch :
    (main_block envRace 2).serverBound = some 8001 ∧
    (main_block envRace 2).browserOpens = [.safari (previewUrl 8000)] ∧
    (main_block envRace 2).browserOpens ≠ [.safari (previewUrl 8001)] := by
  refine ⟨?_, ?_, ?_⟩
  · simp [main_block, envRace, find_available_port, findLoop, start_server]
  · simp [main_block, envRace, find_available_port, findLoop, start_server,
      open_in_safari]
  · have hne : previewUrl 8000 ≠ previewUrl 8001 := by decide
    simp [main_block, envRace, find_available_port, findLoop, start_server,
      open_in_safari, hne]
